import Mathlib

/-!
Verification of the solana-sub subscription-payment pipeline.

Shallow embedding of the backend pipeline (balance/amount validation,
compute-budget and priority-fee estimation, submit-and-confirm resolution,
payment extraction/validation and idempotent persistence) translated from
the TypeScript sources:
  backend/src/api/subscription.ts, backend/src/solana/compute.ts,
  backend/src/solana/transaction/validate.ts, the db module of
  backend/src/config.ts, and the send/confirm and confirm-endpoint variants.

Machine integers are modelled as Nat/Int; JS decimal values (BigNumber,
USDC ui amounts) as Rat; fallible code as Except/Option; the SQLite store
as an explicit record of rows threaded through each operation; the
confirmation timer/poll closure as a step function over an explicit event
sequence.
-/

namespace SolanaSub

/-- USDC mint address constant (validate.ts / subscription.ts). -/
def USDC_MINT : String := "EPjFWdd5AufqSSqeM2qN1xzybapC8G4wEGGkZwyTDt1v"

/-! ## Plan and duration mapping (validate.ts) -/

/-- Embeds `getPlanTypeFromAmount(amount, durationDays)` from
backend/src/solana/transaction/validate.ts lines 293-302 (the identical
helper also appears in the confirm-endpoint variant). -/
def getPlanTypeFromAmount (amount : ℚ) (durationDays : ℕ) : String :=
  if durationDays = 30 then
    if amount = 2 then "Monthly Pro I"
    else if amount = 10 then "Monthly Pro II"
    else "Custom Plan"
  else if durationDays = 365 then
    if amount = 20 then "Yearly Pro I"
    else if amount = 100 then "Yearly Pro II"
    else "Custom Plan"
  else "Custom Plan"

/-- Embeds the subscription-duration threshold chain of
`validateTransactionFromSignature` (validate.ts lines 265-272): default 30,
then `amountUsdc >= 100 ⇒ 365`, `>= 10 ⇒ 30`, `>= 2 ⇒ 30`. -/
def subscriptionDurationFromAmount (amountUsdc : ℚ) : ℕ :=
  if 100 ≤ amountUsdc then 365
  else if 10 ≤ amountUsdc then 30
  else if 2 ≤ amountUsdc then 30
  else 30

/-- Composition of the duration derivation, the minimum-amount check
(`amountUsdc < 2 ⇒ throw "Amount too low"`, validate.ts line 277) and the
plan lookup, exactly in source order: the duration is derived first, the
minimum check throws second, and `getPlanTypeFromAmount` is applied to the
surviving amount. `none` models the thrown `Amount too low` error. -/
def recordedPlanAndDuration (amountUsdc : ℚ) : Option (String × ℕ) :=
  let durationDays := subscriptionDurationFromAmount amountUsdc
  if amountUsdc < 2 then none
  else some (getPlanTypeFromAmount amountUsdc durationDays, durationDays)

/-- The `subscriptionPlans` metadata literal served by
`POST /subscription/transaction` (subscription.ts lines 46-55):
(amount, duration) for monthly pro1/pro2 and yearly pro1/pro2. -/
structure SubscriptionPlansMetadata where
  monthlyPro1 : ℚ × ℕ
  monthlyPro2 : ℚ × ℕ
  yearlyPro1 : ℚ × ℕ
  yearlyPro2 : ℚ × ℕ
deriving DecidableEq

/-- The concrete metadata values from subscription.ts. -/
def subscriptionPlansMetadata : SubscriptionPlansMetadata :=
  { monthlyPro1 := (2, 30), monthlyPro2 := (10, 30)
  , yearlyPro1 := (20, 365), yearlyPro2 := (100, 365) }

/-! ## Priority-fee estimation (compute.ts) -/

/-- `MIN_LAMPORTS_PER_CU` from compute.ts line 13. -/
def MIN_LAMPORTS_PER_CU : ℕ := 10000

/-- `MAX_LAMPORTS_PER_CU` from compute.ts line 14. -/
def MAX_LAMPORTS_PER_CU : ℕ := 70000

/-- `MAX_COMPUTE_UNITS` from compute.ts line 12. -/
def MAX_COMPUTE_UNITS : ℕ := 1400000

/-- Embeds `getPriorityFeeEstimate` (compute.ts lines 64-97).
The argument models the outcome of the `qn_estimatePriorityFees` fetch:
`none` is a thrown fetch/parse error (the surrounding `catch` returns the
minimum fee); `some none` is a response without a truthy
`result.recommended` field; `some (some r)` is a response whose
`result.recommended` equals `r` — `r = 0` is falsy in JS and follows the
missing-field path. On the truthy path the code computes
`Math.floor(recommended / 1000)` and clamps into the configured band. -/
def getPriorityFeeEstimate (response : Option (Option ℕ)) : ℕ :=
  match response with
  | none => MIN_LAMPORTS_PER_CU
  | some none => MIN_LAMPORTS_PER_CU
  | some (some recommended) =>
    if recommended = 0 then MIN_LAMPORTS_PER_CU
    else min (max (recommended / 1000) MIN_LAMPORTS_PER_CU) MAX_LAMPORTS_PER_CU

/-- Embeds the unit-price clamp inside `prepareLegacyTransaction`
(compute.ts line 156): `Math.min(Math.max(microLamports, MIN), MAX)`. -/
def lamportsPerCu (microLamports : ℕ) : ℕ :=
  min (max microLamports MIN_LAMPORTS_PER_CU) MAX_LAMPORTS_PER_CU

/-! ## Compute-unit estimation (compute.ts) -/

/-- Embeds the units returned by `getComputeUnits` on simulation success
(compute.ts line 61): `Number(simulation.value.unitsConsumed) || MAX_COMPUTE_UNITS`.
The argument models `unitsConsumed` from the RPC simulation response
(`none` = absent); an absent or zero value is falsy and falls back to
`MAX_COMPUTE_UNITS`. -/
def getComputeUnits (unitsConsumed : Option ℕ) : ℕ :=
  match unitsConsumed with
  | none => MAX_COMPUTE_UNITS
  | some 0 => MAX_COMPUTE_UNITS
  | some u => u

/-- Embeds `Math.ceil(computeUnitsResult.units * 1.2)` from
`prepareLegacyTransaction` (compute.ts line 152) as the exact rational
ceiling `⌈6u/5⌉`: the double-rounding of `u * 1.2` never crosses an
integer for unit counts in the transaction range, so the float ceiling
agrees with the exact one. -/
def marginedUnits (u : ℕ) : ℕ := (6 * u + 4) / 5

/-- The compute-unit limit placed into the `setComputeUnitLimit` budget
instruction (compute.ts lines 152-161) as a function of the simulated
`unitsConsumed`: the safety margin is applied and the result is used
directly, with no further bound. -/
def computeUnitLimit (unitsConsumed : Option ℕ) : ℕ :=
  marginedUnits (getComputeUnits unitsConsumed)

/-! ## Submit-and-confirm resolution (part_026 `confirmSignature`) -/

/-- Result of one completed `rpc.getTransaction` poll inside
`confirmSignature`: the transaction was found with or without an on-chain
`meta.err`, was not found yet (`tx` null), or the fetch threw (the `catch`
continues polling). -/
inductive PollResult where
  | found (hasErr : Bool)
  | notFound
  | fetchError
deriving DecidableEq

/-- Events delivered to the `confirmSignature` closure by the JS event
loop: an interval tick starting `checkConfirmation` (which tests the
`isResolved` latch before awaiting the fetch), the completion of an
in-flight fetch (which acts on the result without re-testing the latch),
and the firing of the overall timeout timer. -/
inductive ConfirmEvent where
  | pollStart
  | pollComplete (r : PollResult)
  | timeoutFire
deriving DecidableEq

/-- State of one `confirmSignature` invocation: the `isResolved` latch,
the value the returned Promise has been resolved with (if any), and the
number of fetches started but not yet completed. -/
structure ConfirmState where
  isResolved : Bool
  resolvedValue : Option String
  pendingPolls : ℕ
deriving DecidableEq

/-- JS Promise `resolve`: only the first call settles the promise; later
calls are ignored. -/
def resolveOnce (v : String) (s : ConfirmState) : ConfirmState :=
  match s.resolvedValue with
  | some _ => s
  | none => { s with resolvedValue := some v }

/-- One step of the `confirmSignature` closure (part_026 lines 21-80):
`pollStart` returns immediately when `isResolved` is set, otherwise begins
a fetch; `pollComplete` (only meaningful when a fetch is in flight)
resolves the signature when the transaction is found without error,
resolves the empty string when it is found with an on-chain error, and
continues polling otherwise; `timeoutFire` resolves the empty string
unless the latch is already set. -/
def confirmSignatureStep (signature : String) (s : ConfirmState) (e : ConfirmEvent) : ConfirmState :=
  match e with
  | ConfirmEvent.pollStart =>
    if s.isResolved then s else { s with pendingPolls := s.pendingPolls + 1 }
  | ConfirmEvent.pollComplete r =>
    match s.pendingPolls with
    | 0 => s
    | n + 1 =>
      match r with
      | PollResult.found false => resolveOnce signature { s with isResolved := true, pendingPolls := n }
      | PollResult.found true => resolveOnce "" { s with isResolved := true, pendingPolls := n }
      | PollResult.notFound => { s with pendingPolls := n }
      | PollResult.fetchError => { s with pendingPolls := n }
  | ConfirmEvent.timeoutFire =>
    if s.isResolved then s else resolveOnce "" { s with isResolved := true }

/-- Initial state of a `confirmSignature` invocation. -/
def confirmInitState : ConfirmState :=
  { isResolved := false, resolvedValue := none, pendingPolls := 0 }

/-- Runs one `confirmSignature` invocation over a sequence of event-loop
events. -/
def runConfirmSignature (signature : String) (events : List ConfirmEvent) : ConfirmState :=
  events.foldl (confirmSignatureStep signature) confirmInitState

/-- The latch invariant: whenever `isResolved` is set, the promise has
been resolved. -/
def ConfirmInv (s : ConfirmState) : Prop :=
  s.isResolved = true → s.resolvedValue.isSome = true

/-! ## Persistent store (db module of backend/src/config.ts)

Dates are modelled as day numbers (`ℕ`); the JS
`d.setDate(d.getDate() + n)` computation is day addition on that scale,
applied identically wherever the source applies it. -/

/-- A row of the `payments` table (schema in `initializeDatabase`,
config.ts db module lines 31-44; `transaction_hash` carries a UNIQUE
constraint at the storage layer). -/
structure PaymentRow where
  transaction_hash : String
  wallet_address : String
  amount_usdc : ℚ
  payment_date : ℕ
  subscription_duration_days : ℕ
  subscription_end_date : ℕ
  status : String
deriving DecidableEq

/-- A row of the `subscriptions` table (`wallet_address` UNIQUE). -/
structure SubscriptionRow where
  wallet_address : String
  subscription_end_date : ℕ
deriving DecidableEq

/-- The persisted state, plus a history of every subscription-upsert
call (`subscriptionWrites`), recorded so that attempted writes — not just
final row values — can be stated. -/
structure DbState where
  payments : List PaymentRow
  subscriptions : List SubscriptionRow
  subscriptionWrites : List (String × ℕ)
deriving DecidableEq

/-- The freshly initialized in-memory database. -/
def emptyDb : DbState :=
  { payments := [], subscriptions := [], subscriptionWrites := [] }

/-- Embeds `getPaymentByTransactionHash` (config.ts db module lines
181-201): `SELECT * FROM payments WHERE transaction_hash = ?`. -/
def getPaymentByTransactionHash (db : DbState) (transaction_hash : String) : Option PaymentRow :=
  db.payments.find? (fun r => r.transaction_hash == transaction_hash)

/-- The JS `payment.subscription_duration_days || 30` fallback used by
`addPayment`: a zero (falsy) duration falls back to 30 days. -/
def durationOrDefault (subscription_duration_days : ℕ) : ℕ :=
  if subscription_duration_days = 0 then 30 else subscription_duration_days

/-- Embeds `updateSubscription` (config.ts db module lines 156-176):
`INSERT ... ON CONFLICT(wallet_address) DO UPDATE` upsert of the
subscription end date; the upsert always changes one row, so the source's
`result.changes > 0` is `true`. Every call is also appended to the
`subscriptionWrites` history. -/
def updateSubscription (db : DbState) (wallet_address : String) (subscription_end_date : ℕ) :
    DbState × Bool :=
  let subs :=
    if db.subscriptions.any (fun s => s.wallet_address == wallet_address) then
      db.subscriptions.map (fun s =>
        if s.wallet_address == wallet_address then
          { s with subscription_end_date := subscription_end_date }
        else s)
    else
      db.subscriptions ++ [{ wallet_address := wallet_address, subscription_end_date := subscription_end_date }]
  ({ db with
      subscriptions := subs,
      subscriptionWrites := db.subscriptionWrites ++ [(wallet_address, subscription_end_date)] },
   true)

/-- The argument record of `addPayment` (the `Payment` fields supplied by
callers; `subscription_end_date` is computed inside `addPayment`). -/
structure PaymentInput where
  transaction_hash : String
  wallet_address : String
  amount_usdc : ℚ
  payment_date : ℕ
  subscription_duration_days : ℕ
  status : String
deriving DecidableEq

/-- Embeds `addPayment` (config.ts db module lines 94-129). The INSERT
violates the storage-layer UNIQUE constraint exactly when a row with the
same `transaction_hash` already exists; the thrown constraint error is
caught and `false` is returned with the store unchanged. Otherwise the
payment row is inserted with end date `payment_date + (duration || 30)`,
`updateSubscription` is awaited with that same end date, and `true`
(`result.changes > 0`) is returned. -/
def addPayment (db : DbState) (payment : PaymentInput) : DbState × Bool :=
  match getPaymentByTransactionHash db payment.transaction_hash with
  | some _ => (db, false)
  | none =>
    let subscription_end_date :=
      payment.payment_date + durationOrDefault payment.subscription_duration_days
    let row : PaymentRow :=
      { transaction_hash := payment.transaction_hash,
        wallet_address := payment.wallet_address,
        amount_usdc := payment.amount_usdc,
        payment_date := payment.payment_date,
        subscription_duration_days := durationOrDefault payment.subscription_duration_days,
        subscription_end_date := subscription_end_date,
        status := payment.status }
    let db1 := { db with payments := db.payments ++ [row] }
    ((updateSubscription db1 payment.wallet_address subscription_end_date).1, true)

/-- Embeds `updatePaymentStatus` (config.ts db module lines 134-151):
`UPDATE payments SET status = ? WHERE transaction_hash = ?`; returns
whether any row changed. -/
def updatePaymentStatus (db : DbState) (transaction_hash : String) (status : String) :
    DbState × Bool :=
  ({ db with payments := db.payments.map (fun r =>
      if r.transaction_hash == transaction_hash then { r with status := status } else r) },
   db.payments.any (fun r => r.transaction_hash == transaction_hash))

/-- Whether a payment row keyed by the given transaction hash exists. -/
def rowExists (db : DbState) (transaction_hash : String) : Bool :=
  db.payments.any (fun r => r.transaction_hash == transaction_hash)

/-! ## Transaction validation (validate.ts `validateTransaction`, 4-argument variant) -/

/-- The decoded last instruction of a fetched transaction: whether
`identifyTokenInstruction` classifies it as `TransferChecked`, its mint,
its amount (`u64` decoded as an integer) and its destination account. -/
structure InstrInfo where
  isTransferChecked : Bool
  mint : String
  amount : ℤ
  destination : String
deriving DecidableEq

/-- The decode-relevant content of a fetched transaction: the signer map
(address, optional signature) in order, and the last instruction of the
message if any. -/
structure TxData where
  signers : List (String × Option String)
  lastInstruction : Option InstrInfo
deriving DecidableEq

/-- The `ValidatedSubscription` result record of validate.ts. -/
structure ValidatedSubscription where
  signature : String
  signer : String
  recipient : String
  amount : ℚ
  currency : String
  subscriptionDurationDays : ℕ
  planType : String
deriving DecidableEq

/-- The decode-and-check prefix of `validateTransaction` (validate.ts
lines 52-117): fetch failure, empty signer list, unsigned primary signer,
missing last instruction, non-TransferChecked instruction, non-USDC mint
and non-positive amount each throw the source's error message; otherwise
the primary signer address and the instruction survive. -/
def decodeTransaction (fetched : Option TxData) : Except String (String × InstrInfo) :=
  match fetched with
  | none => Except.error "Failed to fetch transaction"
  | some tx =>
    match tx.signers with
    | [] => Except.error "No signers found in transaction"
    | (signerAddress, signerSignature) :: _ =>
      match signerSignature with
      | none => Except.error "Primary signer has not signed the transaction"
      | some _ =>
        match tx.lastInstruction with
        | none => Except.error "Missing transfer instruction"
        | some instr =>
          if instr.isTransferChecked = false then
            Except.error "Not a transfer checked instruction"
          else if instr.mint ≠ USDC_MINT then
            Except.error "Invalid currency - only USDC supported"
          else if instr.amount ≤ 0 then
            Except.error "Invalid amount"
          else Except.ok (signerAddress, instr)

/-- Embeds `validateTransaction` (validate.ts lines 39-159): the
duplicate-payment check precedes everything; then the transaction is
fetched and decoded; then the payment row is created via `addPayment`
(status `confirmed`, payment date `now`) and the subscription end date
`now + subscriptionDurationDays` is upserted a second time by this
caller. A failed subscription upsert is only logged. -/
def validateTransaction (db : DbState) (signature walletAddress : String)
    (amountUsdc : ℚ) (subscriptionDurationDays : ℕ)
    (fetched : Option TxData) (now : ℕ) :
    DbState × Except String ValidatedSubscription :=
  match getPaymentByTransactionHash db signature with
  | some _ => (db, Except.error "Payment already processed")
  | none =>
    match decodeTransaction fetched with
    | Except.error e => (db, Except.error e)
    | Except.ok (signerAddress, instr) =>
      let planType := getPlanTypeFromAmount amountUsdc subscriptionDurationDays
      match addPayment db
        { transaction_hash := signature, wallet_address := walletAddress,
          amount_usdc := amountUsdc, payment_date := now,
          subscription_duration_days := subscriptionDurationDays,
          status := "confirmed" } with
      | (db1, false) => (db1, Except.error "Failed to create payment record")
      | (db1, true) =>
        let subscriptionEndDate := now + subscriptionDurationDays
        let db2 := (updateSubscription db1 walletAddress subscriptionEndDate).1
        (db2, Except.ok
          { signature := signature, signer := signerAddress,
            recipient := instr.destination, amount := amountUsdc,
            currency := instr.mint,
            subscriptionDurationDays := subscriptionDurationDays,
            planType := planType })

/-! ## Amount validation (subscription.ts `validateAmount`) -/

/-- Token metadata as used by `validateAmount` (only the symbol appears
in the message). -/
structure TokenMetadata where
  symbol : String
deriving DecidableEq

/-- Left-pads a digit string with zeros to length 4. -/
def padZeros4 (s : String) : String :=
  String.mk (List.replicate (4 - s.length) '0') ++ s

/-- `BigNumber.toFixed(4)` for a nonnegative balance: the value rounded
half-up to 4 decimal places and rendered with exactly 4 fractional
digits. -/
def toFixed4 (b : ℚ) : String :=
  let n : ℕ := (Rat.floor (b * 10000 + 1 / 2)).toNat
  toString (n / 10000) ++ "." ++ padZeros4 (toString (n % 10000))

/-- Embeds `validateAmount` (subscription.ts lines 130-152). The first
argument is the `BigNumber(amount)` parse of the request amount, `none`
standing for NaN — BigNumber comparisons against NaN are `false`, so a
NaN amount passes both comparisons, exactly as in the source. The other
arguments model the balance lookup (`none`: no token account) and the
metadata lookup. -/
def validateAmount (amount : Option ℚ) (balance : Option ℚ)
    (metadata : Option TokenMetadata) : Except String Unit :=
  if (match amount with
      | none => false
      | some inputAmount => decide (inputAmount ≤ 0)) then
    Except.error "Amount must be greater than 0!"
  else
    match balance with
    | none => Except.error "Token not found in wallet!"
    | some userBalance =>
      if (match amount with
          | none => false
          | some inputAmount => decide (userBalance < inputAmount)) then
        match metadata with
        | none => Except.error "Token not found!"
        | some m =>
          Except.error ("Insufficient balance! You have " ++ (toFixed4 userBalance ++ (" " ++ m.symbol)))
      else Except.ok ()

/-- Whether the first list of characters starts the second. -/
def startsWithChars : List Char → List Char → Bool
  | [], _ => true
  | _ :: _, [] => false
  | c :: cs, d :: ds => c == d && startsWithChars cs ds

/-- Whether a `validateAmount` outcome is the insufficient-balance
failure (an error message beginning with the fixed
`Insufficient balance!` text). -/
def isInsufficientBalanceError (r : Except String Unit) : Bool :=
  match r with
  | Except.error msg => startsWithChars "Insufficient balance!".data msg.data
  | Except.ok _ => false

/-! ## Request-amount parsing (subscription.ts transaction handler) -/

/-- Numeric value of a digit list (most significant first). -/
def digitsToNat (cs : List Char) : ℕ :=
  cs.foldl (fun n c => 10 * n + (c.toNat - 48)) 0

/-- Parse of an unsigned plain decimal numeral (`BigNumber` accepts an
integer part, an optional dot and a fractional part, with at least one
digit overall); anything else is NaN (`none`). -/
def parseUnsignedDecimal (cs : List Char) : Option ℚ :=
  if cs.contains '.' then
    let intPart := cs.takeWhile (fun c => c ≠ '.')
    let fracPart := (cs.dropWhile (fun c => c ≠ '.')).drop 1
    if fracPart.contains '.' then none
    else if intPart.all Char.isDigit ∧ fracPart.all Char.isDigit
        ∧ (intPart ≠ [] ∨ fracPart ≠ []) then
      some ((digitsToNat intPart : ℚ) + (digitsToNat fracPart : ℚ) / ((10 : ℚ) ^ fracPart.length))
    else none
  else if cs ≠ [] ∧ cs.all Char.isDigit then some (digitsToNat cs : ℚ)
  else none

/-- `new BigNumber(s)` for plain decimal notation: optional sign, then an
unsigned decimal numeral; `none` models NaN. -/
def parseDecimalString (s : String) : Option ℚ :=
  match s.data with
  | '-' :: rest => (parseUnsignedDecimal rest).map (fun q => -q)
  | '+' :: rest => parseUnsignedDecimal rest
  | cs => parseUnsignedDecimal cs

/-- JS whitespace trimming at the character level. -/
def trimChars (cs : List Char) : List Char :=
  ((cs.dropWhile Char.isWhitespace).reverse.dropWhile Char.isWhitespace).reverse

/-- JS `BigInt(s)` over decimal strings: the trimmed string must be empty
(value 0) or an optionally signed run of decimal digits; any other shape
— in particular any string containing a decimal point — throws a
`SyntaxError`, modelled as `none`. -/
def jsBigIntOfString (s : String) : Option ℤ :=
  match trimChars s.data with
  | [] => some 0
  | '-' :: rest =>
    if rest ≠ [] ∧ rest.all Char.isDigit then some (-(digitsToNat rest : ℤ)) else none
  | '+' :: rest =>
    if rest ≠ [] ∧ rest.all Char.isDigit then some (digitsToNat rest : ℤ) else none
  | cs =>
    if cs.all Char.isDigit then some (digitsToNat cs : ℤ) else none

/-- JS `uiAmount.replace(',', '.')`: only the first comma is replaced. -/
def replaceFirstCommaChars : List Char → List Char
  | [] => []
  | c :: cs => if c = ',' then '.' :: cs else c :: replaceFirstCommaChars cs

/-- String-level wrapper of the first-comma replacement. -/
def replaceFirstComma (s : String) : String :=
  String.mk (replaceFirstCommaChars s.data)

/-- The success payload of `POST /subscription/transaction`: the prepared
wire transaction and the base-unit amount `BigInt(amount) * 10^6` passed
to the transfer-instruction builder. -/
structure SubscriptionTransactionOk where
  transaction : String
  amountBaseUnits : ℤ
deriving DecidableEq

/-- Embeds the `POST /subscription/transaction` handler (subscription.ts
lines 13-68): normalize the comma, run `validateAmount`, then convert the
amount with `BigInt(amount) * BigInt(10 ** 6)` — which throws before any
instruction is built when the string is not an integer numeral — then
build and return the prepared transaction (`preparedTransaction` models
the `prepareTransaction` result). Every thrown error is caught and
returned as a 400 response carrying the error message (`Except.error`). -/
def subscriptionTransactionHandler (uiAmount : String) (balance : Option ℚ)
    (metadata : Option TokenMetadata) (preparedTransaction : String) :
    Except String SubscriptionTransactionOk :=
  let amount := replaceFirstComma uiAmount
  match validateAmount (parseDecimalString amount) balance metadata with
  | Except.error msg => Except.error msg
  | Except.ok _ =>
    match jsBigIntOfString amount with
    | none => Except.error ("Cannot convert " ++ (amount ++ " to a BigInt"))
    | some n =>
      Except.ok { transaction := preparedTransaction, amountBaseUnits := n * 1000000 }

/-! ## Confirm endpoint processing (part_029 `POST /confirm/transactions`,
part_026 `sendTransaction`, part_024 `validateTransaction` from meta) -/

/-- Outcome of `sendRawTransaction`: the RPC call threw (possibly
carrying a `signature` property on the error object) or returned a
signature, meaning the transaction reached the network. -/
inductive SubmitResult where
  | threw (errSignature : Option String)
  | sent (signature : String)
deriving DecidableEq

/-- Terminal outcome of the `confirmSignature` poll loop for a submitted
transaction. -/
inductive ConfirmOutcome where
  | confirmed
  | failedOnChain
  | timedOut
deriving DecidableEq

/-- The value `confirmSignature` resolves for each terminal outcome
(part_026 lines 48-75): the signature when confirmed, the empty string
both on an on-chain error and on timeout. -/
def confirmResolution (signature : String) (c : ConfirmOutcome) : String :=
  match c with
  | ConfirmOutcome.confirmed => signature
  | ConfirmOutcome.failedOnChain => ""
  | ConfirmOutcome.timedOut => ""

/-- Embeds `sendTransaction` (part_026 lines 85-107): on a send error the
catch block marks an already-existing payment row `failed` when the error
object carries a signature, then rethrows; on success the
`confirmSignature` resolution is returned. -/
def sendTransaction (db : DbState) (submit : SubmitResult) (confirm : ConfirmOutcome) :
    DbState × Except String String :=
  match submit with
  | SubmitResult.threw errSignature =>
    let db1 :=
      match errSignature with
      | some s => (updatePaymentStatus db s "failed").1
      | none => db
    (db1, Except.error "Transaction failed")
  | SubmitResult.sent signature =>
    (db, Except.ok (confirmResolution signature confirm))

/-- Payment details recovered by `extractPaymentDetailsFromMeta`
(part_024): fee-paying signer, USDC amount (balance-delta magnitude),
mint and recipient. -/
structure PaymentDetails where
  walletAddress : String
  amountUsdc : ℚ
  paymentMint : String
  recipient : String
deriving DecidableEq

/-- Embeds the 2-argument `validateTransaction` variant (part_024 lines
273-352) used by the confirm endpoint: duplicate check, balance-delta
extraction (`none` models a failed extraction), minimum-amount check,
duration thresholds, plan lookup, `addPayment` with status `confirmed`,
then the caller-side subscription upsert. -/
def validateTransactionFromMeta (db : DbState) (signature : String)
    (details : Option PaymentDetails) (now : ℕ) :
    DbState × Except String ValidatedSubscription :=
  match getPaymentByTransactionHash db signature with
  | some _ => (db, Except.error "Payment already processed")
  | none =>
    match details with
    | none => (db, Except.error "Failed to extract payment details from transaction")
    | some pd =>
      if pd.amountUsdc < 2 then (db, Except.error "Amount too low")
      else
        let subscriptionDurationDays := subscriptionDurationFromAmount pd.amountUsdc
        let planType := getPlanTypeFromAmount pd.amountUsdc subscriptionDurationDays
        match addPayment db
          { transaction_hash := signature, wallet_address := pd.walletAddress,
            amount_usdc := pd.amountUsdc, payment_date := now,
            subscription_duration_days := subscriptionDurationDays,
            status := "confirmed" } with
        | (db1, false) => (db1, Except.error "Failed to create payment record")
        | (db1, true) =>
          let db2 := (updateSubscription db1 pd.walletAddress (now + subscriptionDurationDays)).1
          (db2, Except.ok
            { signature := signature, signer := pd.walletAddress,
              recipient := pd.recipient, amount := pd.amountUsdc,
              currency := pd.paymentMint,
              subscriptionDurationDays := subscriptionDurationDays,
              planType := planType })

/-- The optional per-transaction payment metadata supplied in the
request body of `POST /confirm/transactions`. -/
structure PaymentInfo where
  transaction_hash : String
  wallet_address : String
  amount_usdc : ℚ
  payment_date : String
  subscription_duration_days : Option ℕ
deriving DecidableEq

/-- The part of the fetched confirmed transaction the handler inspects
directly: whether `meta.err` is set. -/
structure FetchedMeta where
  metaErr : Bool
deriving DecidableEq

/-- The network/oracle inputs consumed while processing one transaction
of a `POST /confirm/transactions` batch. -/
structure TxProcessInputs where
  submit : SubmitResult
  confirm : ConfirmOutcome
  payment : Option PaymentInfo
  fetched : Option FetchedMeta
  details : Option PaymentDetails
  now : ℕ
deriving DecidableEq

/-- The per-transaction response entry (signature and status string). -/
structure TxProcessResult where
  signature : String
  status : String
deriving DecidableEq

/-- Whether the transaction reached the network. -/
def wasSubmitted (inp : TxProcessInputs) : Bool :=
  match inp.submit with
  | SubmitResult.sent _ => true
  | SubmitResult.threw _ => false

/-- Embeds the per-transaction body of the `POST /confirm/transactions`
handler (part_029 lines 18-98): send-and-confirm; on a thrown send error
the outer catch reports status `failed`; with a truthy signature and
payment metadata, the confirmed transaction is fetched and validated (any
error there is caught as `confirmed_but_validation_failed`); a falsy
(empty) signature — the resolution of both failed and timed-out
confirmations — reports `failed` with no database write. -/
def processTransaction (db : DbState) (inp : TxProcessInputs) :
    DbState × TxProcessResult :=
  match sendTransaction db inp.submit inp.confirm with
  | (db1, Except.error _) => (db1, { signature := "", status := "failed" })
  | (db1, Except.ok signature) =>
    if signature = "" then
      (db1, { signature := signature, status := "failed" })
    else
      match inp.payment with
      | none => (db1, { signature := signature, status := "confirmed" })
      | some _ =>
        match inp.fetched with
        | none => (db1, { signature := signature, status := "confirmed_but_validation_failed" })
        | some f =>
          if f.metaErr then
            (db1, { signature := signature, status := "confirmed_but_validation_failed" })
          else
            match validateTransactionFromMeta db1 signature inp.details inp.now with
            | (db2, Except.ok _) => (db2, { signature := signature, status := "confirmed" })
            | (db2, Except.error _) =>
              (db2, { signature := signature, status := "confirmed_but_validation_failed" })

end SolanaSub

namespace SolanaSub

/-! ## Helper lemmas for the confirmation machine -/

theorem resolveOnce_keeps_some {s : ConfirmState} {v : String}
    (w : String) (h : s.resolvedValue = some v) :
    (resolveOnce w s).resolvedValue = some v := by
  simp [resolveOnce, h]

theorem resolveOnce_isSome (w : String) (s : ConfirmState) :
    ((resolveOnce w s).resolvedValue).isSome = true := by
  simp only [resolveOnce]
  split <;> simp_all

theorem confirmSignatureStep_keeps_some {s : ConfirmState} {v : String}
    (signature : String) (e : ConfirmEvent) (h : s.resolvedValue = some v) :
    (confirmSignatureStep signature s e).resolvedValue = some v := by
  cases e with
  | pollStart =>
    simp only [confirmSignatureStep]
    split <;> simp [h]
  | pollComplete r =>
    simp only [confirmSignatureStep]
    cases hp : s.pendingPolls with
    | zero => exact h
    | succ n =>
      cases r with
      | found hasErr =>
        cases hasErr <;> exact resolveOnce_keeps_some _ h
      | notFound => exact h
      | fetchError => exact h
  | timeoutFire =>
    simp only [confirmSignatureStep]
    split
    · exact h
    · exact resolveOnce_keeps_some _ h

theorem foldlConfirm_keeps_some {v : String} (signature : String)
    (events : List ConfirmEvent) :
    ∀ s : ConfirmState, s.resolvedValue = some v →
      (events.foldl (confirmSignatureStep signature) s).resolvedValue = some v := by
  induction events with
  | nil => intro s h; simpa using h
  | cons e rest ih =>
    intro s h
    simp only [List.foldl_cons]
    exact ih _ (confirmSignatureStep_keeps_some signature e h)

theorem confirmSignatureStep_inv {s : ConfirmState} (signature : String)
    (e : ConfirmEvent) (h : ConfirmInv s) :
    ConfirmInv (confirmSignatureStep signature s e) := by
  cases e with
  | pollStart =>
    simp only [confirmSignatureStep]
    split
    · exact h
    · intro hr
      exact h hr
  | pollComplete r =>
    simp only [confirmSignatureStep]
    cases hp : s.pendingPolls with
    | zero => exact h
    | succ n =>
      cases r with
      | found hasErr =>
        cases hasErr <;> exact fun _ => resolveOnce_isSome _ _
      | notFound => intro hr; exact h hr
      | fetchError => intro hr; exact h hr
  | timeoutFire =>
    simp only [confirmSignatureStep]
    split
    · exact h
    · exact fun _ => resolveOnce_isSome _ _

theorem foldlConfirm_inv (signature : String) (events : List ConfirmEvent) :
    ∀ s : ConfirmState, ConfirmInv s →
      ConfirmInv (events.foldl (confirmSignatureStep signature) s) := by
  induction events with
  | nil => intro s h; simpa using h
  | cons e rest ih =>
    intro s h
    simp only [List.foldl_cons]
    exact ih _ (confirmSignatureStep_inv signature e h)

theorem foldlConfirm_keeps_isSome (signature : String)
    (events : List ConfirmEvent) (s : ConfirmState)
    (h : s.resolvedValue.isSome = true) :
    ((events.foldl (confirmSignatureStep signature) s).resolvedValue).isSome = true := by
  obtain ⟨v, hv⟩ := Option.isSome_iff_exists.mp h
  rw [foldlConfirm_keeps_some signature events s hv]
  rfl

theorem confirmSignatureStep_value_cases (signature : String)
    (s : ConfirmState) (e : ConfirmEvent) :
    (confirmSignatureStep signature s e).resolvedValue = s.resolvedValue
    ∨ (confirmSignatureStep signature s e).resolvedValue = some signature
    ∨ (confirmSignatureStep signature s e).resolvedValue = some "" := by
  cases e with
  | pollStart =>
    simp only [confirmSignatureStep]
    split <;> simp
  | pollComplete r =>
    simp only [confirmSignatureStep]
    cases hp : s.pendingPolls with
    | zero => simp
    | succ n =>
      cases r with
      | found hasErr =>
        cases hasErr <;> simp only [resolveOnce] <;> split <;> simp_all
      | notFound => simp
      | fetchError => simp
  | timeoutFire =>
    simp only [confirmSignatureStep]
    split
    · simp
    · simp only [resolveOnce]
      split <;> simp_all

theorem foldlConfirm_value_cases (signature : String)
    (events : List ConfirmEvent) :
    ∀ s : ConfirmState,
      (s.resolvedValue = none ∨ s.resolvedValue = some signature ∨ s.resolvedValue = some "") →
      ((events.foldl (confirmSignatureStep signature) s).resolvedValue = none
       ∨ (events.foldl (confirmSignatureStep signature) s).resolvedValue = some signature
       ∨ (events.foldl (confirmSignatureStep signature) s).resolvedValue = some "") := by
  induction events with
  | nil => intro s h; simpa using h
  | cons e rest ih =>
    intro s h
    simp only [List.foldl_cons]
    apply ih
    rcases confirmSignatureStep_value_cases signature s e with hc | hc | hc
    · rw [hc]; exact h
    · right; left; exact hc
    · right; right; exact hc

/-! ## Helper lemmas for the persistent store -/

theorem updateSubscription_payments (db : DbState) (w : String) (e : ℕ) :
    (updateSubscription db w e).1.payments = db.payments := rfl

theorem updateSubscription_subscriptionWrites (db : DbState) (w : String) (e : ℕ) :
    (updateSubscription db w e).1.subscriptionWrites = db.subscriptionWrites ++ [(w, e)] := rfl

theorem rowExists_updateSubscription (db : DbState) (w : String) (e : ℕ) (s : String) :
    rowExists (updateSubscription db w e).1 s = rowExists db s := rfl

theorem rowExists_updatePaymentStatus (db : DbState) (h st s : String) :
    rowExists (updatePaymentStatus db h st).1 s = rowExists db s := by
  simp only [rowExists, updatePaymentStatus, List.any_map]
  congr 1
  funext r
  by_cases hr : (r.transaction_hash == h) = true <;> simp [Function.comp, hr]

theorem rowExists_addPayment {db : DbState} {p : PaymentInput} {s : String}
    (h : rowExists (addPayment db p).1 s = true) :
    rowExists db s = true ∨ s = p.transaction_hash := by
  cases hfind : getPaymentByTransactionHash db p.transaction_hash with
  | some r =>
    simp only [addPayment, hfind] at h
    exact Or.inl h
  | none =>
    simp only [addPayment, hfind, rowExists_updateSubscription] at h
    simp only [rowExists, List.any_append, List.any_cons, List.any_nil,
      Bool.or_false, Bool.or_eq_true] at h
    rcases h with h | h
    · exact Or.inl h
    · exact Or.inr (beq_iff_eq.mp h).symm

theorem rowExists_validateTransactionFromMeta {db : DbState} {sig : String}
    {details : Option PaymentDetails} {now : ℕ} {s : String}
    (h : rowExists (validateTransactionFromMeta db sig details now).1 s = true) :
    rowExists db s = true ∨ s = sig := by
  cases hfind : getPaymentByTransactionHash db sig with
  | some r =>
    simp only [validateTransactionFromMeta, hfind] at h
    exact Or.inl h
  | none =>
    cases details with
    | none =>
      simp only [validateTransactionFromMeta, hfind] at h
      exact Or.inl h
    | some pd =>
      by_cases hlt : pd.amountUsdc < 2
      · simp only [validateTransactionFromMeta, hfind, if_pos hlt] at h
        exact Or.inl h
      · simp only [validateTransactionFromMeta, hfind, if_neg hlt, addPayment,
          rowExists_updateSubscription] at h
        simp only [rowExists, List.any_append, List.any_cons, List.any_nil,
          Bool.or_false, Bool.or_eq_true] at h
        rcases h with h | h
        · exact Or.inl h
        · exact Or.inr (beq_iff_eq.mp h).symm

theorem validateTransaction_duplicate (db : DbState) (signature w : String)
    (a : ℚ) (d : ℕ) (f : Option TxData) (n : ℕ) (r : PaymentRow)
    (hfind : getPaymentByTransactionHash db signature = some r) :
    validateTransaction db signature w a d f n
      = (db, Except.error "Payment already processed") := by
  simp [validateTransaction, hfind]

/-! ## Theorems for claims C2, C4, C5 -/

/-- Claim C2 (code_bug evaluation): the plan/duration recorded by the
pipeline is a pure function of the amount, but at amount 20 the threshold
chain derives duration 30 (365 requires amount ≥ 100) and the plan lookup
therefore yields "Custom Plan", not ("Yearly Pro I", 365) as the claim
states; the code's own `subscriptionPlans` metadata designates
(20, 365) as Yearly Pro I and `getPlanTypeFromAmount 20 365` would return
"Yearly Pro I", so that branch is unreachable from the duration chain.
All other rows of the claim's table match the code. -/
theorem recordedPlanAndDuration_spec_table :
    recordedPlanAndDuration 2 = some ("Monthly Pro I", 30)
    ∧ recordedPlanAndDuration 10 = some ("Monthly Pro II", 30)
    ∧ recordedPlanAndDuration 20 = some ("Custom Plan", 30)
    ∧ recordedPlanAndDuration 100 = some ("Yearly Pro II", 365)
    ∧ recordedPlanAndDuration 1 = none
    ∧ recordedPlanAndDuration 7 = some ("Custom Plan", 30)
    ∧ getPlanTypeFromAmount 20 365 = "Yearly Pro I"
    ∧ subscriptionPlansMetadata.yearlyPro1 = (20, 365) := by
  refine ⟨?_, ?_, ?_, ?_, ?_, ?_, ?_, ?_⟩ <;> decide

/-- Claim C4: for every fee-query outcome the estimator's unit price lies
in the configured `[MIN_LAMPORTS_PER_CU, MAX_LAMPORTS_PER_CU]` band; a
failed fetch and a response without a recommended fee both yield the
configured minimum fee (the estimator is total, never failing the
pipeline); and the second clamp applied when building the price
instruction leaves the estimate unchanged. -/
theorem getPriorityFeeEstimate_in_band :
    (∀ response : Option (Option ℕ),
      MIN_LAMPORTS_PER_CU ≤ getPriorityFeeEstimate response
      ∧ getPriorityFeeEstimate response ≤ MAX_LAMPORTS_PER_CU
      ∧ lamportsPerCu (getPriorityFeeEstimate response) = getPriorityFeeEstimate response)
    ∧ getPriorityFeeEstimate none = MIN_LAMPORTS_PER_CU
    ∧ getPriorityFeeEstimate (some none) = MIN_LAMPORTS_PER_CU := by
  refine ⟨?_, rfl, rfl⟩
  intro response
  match response with
  | none => refine ⟨le_refl _, ?_, rfl⟩; decide
  | some none => refine ⟨le_refl _, ?_, rfl⟩; decide
  | some (some recommended) =>
    by_cases h0 : recommended = 0
    · subst h0
      refine ⟨le_refl _, ?_, rfl⟩; decide
    · simp only [getPriorityFeeEstimate, lamportsPerCu, if_neg h0]
      unfold MIN_LAMPORTS_PER_CU MAX_LAMPORTS_PER_CU
      omega

/-- Claim C5 (counterexample): when simulation succeeds reporting
1,200,000 consumed compute units, the limit placed in the budget
instruction is 1,440,000, which exceeds `MAX_COMPUTE_UNITS` = 1,400,000 —
the code applies the 20% margin but performs no clamp to the network
maximum, so the claim's clamping assertion is false. -/
theorem computeUnitLimit_exceeds_max :
    computeUnitLimit (some 1200000) = 1440000
    ∧ MAX_COMPUTE_UNITS < computeUnitLimit (some 1200000) := by
  constructor <;> decide

/-- Claim C5 (amended): whenever the trial simulation succeeds and reports
`u` consumed compute units, the compute-unit limit equals `⌈1.2·u⌉` — an
exact 20% safety margin rounded up (`6u ≤ 5·limit ≤ 6u + 4`) — and it is
not clamped to the network maximum: the limit exceeds
`MAX_COMPUTE_UNITS` precisely when `u ≥ 1,166,667`. -/
theorem marginedUnits_margin_no_clamp :
    ∀ u : ℕ,
      6 * u ≤ 5 * marginedUnits u
      ∧ 5 * marginedUnits u ≤ 6 * u + 4
      ∧ (MAX_COMPUTE_UNITS < marginedUnits u ↔ 1166667 ≤ u) := by
  intro u
  unfold marginedUnits MAX_COMPUTE_UNITS
  omega

/-! ## Theorems for claims C3 and C6 -/

/-- Claim C3: each `confirmSignature` invocation resolves at most one
terminal value — once the promise is resolved with `v`, no later poll
completion, late notification, or timer event can change the resolution —
and whenever the timeout timer fires during the run, a terminal
resolution does occur, so exactly one terminal resolution happens per
invocation. -/
theorem confirmSignature_single_resolution :
    (∀ (signature v : String) (events more : List ConfirmEvent),
      (runConfirmSignature signature events).resolvedValue = some v →
      (runConfirmSignature signature (events ++ more)).resolvedValue = some v)
    ∧ (∀ (signature : String) (events : List ConfirmEvent),
      ConfirmEvent.timeoutFire ∈ events →
      ((runConfirmSignature signature events).resolvedValue).isSome = true) := by
  constructor
  · intro signature v events more h
    simp only [runConfirmSignature, List.foldl_append]
    exact foldlConfirm_keeps_some signature more _ h
  · intro signature events hmem
    obtain ⟨l1, l2, rfl⟩ := List.append_of_mem hmem
    simp only [runConfirmSignature, List.foldl_append, List.foldl_cons]
    apply foldlConfirm_keeps_isSome
    have hinv : ConfirmInv (l1.foldl (confirmSignatureStep signature) confirmInitState) := by
      apply foldlConfirm_inv
      intro h
      simp [confirmInitState] at h
    set s1 := l1.foldl (confirmSignatureStep signature) confirmInitState with hs1
    simp only [confirmSignatureStep]
    split
    · exact hinv (by assumption)
    · simp only [resolveOnce]
      split <;> simp_all

/-- Witness for C3 at a concrete run: a resolution latched by a
successful poll survives a later timer event, and a run containing a
timer event is resolved. -/
theorem confirmSignature_single_resolution_witness :
    (runConfirmSignature "sg3"
      ([ConfirmEvent.pollStart, ConfirmEvent.pollComplete (PollResult.found false)]
        ++ [ConfirmEvent.timeoutFire])).resolvedValue = some "sg3"
    ∧ ((runConfirmSignature "sg3" [ConfirmEvent.timeoutFire]).resolvedValue).isSome = true := by
  refine ⟨confirmSignature_single_resolution.1 "sg3" "sg3" _ _ (by decide),
    confirmSignature_single_resolution.2 "sg3" _ (by simp)⟩

/-- Claim C6 (counterexample): the confirmation routine does not report
the timed-out outcome distinctly from the failed outcome — a run whose
poll finds the transaction with an on-chain error and a run that only
times out both resolve the same value, the empty string, so a caller
cannot distinguish "definitely rejected" from "unknown, check later". -/
theorem confirmSignature_failed_timeout_indistinguishable :
    (runConfirmSignature "sg6"
      [ConfirmEvent.pollStart, ConfirmEvent.pollComplete (PollResult.found true)]).resolvedValue
      = some ""
    ∧ (runConfirmSignature "sg6" [ConfirmEvent.timeoutFire]).resolvedValue = some "" := by
  constructor <;> decide

/-- Claim C6 (amended): the confirmation routine distinguishes the
confirmed outcome — resolving the transaction signature — from the other
terminal outcomes, but it resolves the same empty string for both the
failed outcome (transaction found with an on-chain error) and the
timed-out outcome, and the empty string and the signature are the only
values it ever resolves; callers therefore cannot distinguish "definitely
rejected" from "unknown, check later". -/
theorem confirmSignature_outcome_values (signature : String)
    (hs : signature ≠ "") :
    (runConfirmSignature signature
      [ConfirmEvent.pollStart, ConfirmEvent.pollComplete (PollResult.found false)]).resolvedValue
      = some signature
    ∧ (runConfirmSignature signature
      [ConfirmEvent.pollStart, ConfirmEvent.pollComplete (PollResult.found true)]).resolvedValue
      = some ""
    ∧ (runConfirmSignature signature [ConfirmEvent.timeoutFire]).resolvedValue = some ""
    ∧ some signature ≠ (some "" : Option String)
    ∧ (∀ events : List ConfirmEvent,
      (runConfirmSignature signature events).resolvedValue = none
      ∨ (runConfirmSignature signature events).resolvedValue = some signature
      ∨ (runConfirmSignature signature events).resolvedValue = some "") := by
  refine ⟨rfl, rfl, rfl, by simpa using hs, ?_⟩
  intro events
  apply foldlConfirm_value_cases
  left
  rfl

/-! ## Theorem for claim C1 -/

/-- Claim C1: whenever a `validateTransaction` call for a transaction
identifier succeeds, calling it a second time with the same identifier
(any wallet, amount, duration, fetched transaction and clock) fails with
the `Payment already processed` (DuplicatePayment) error, leaves the
persisted state unchanged, and exactly one payment row keyed by that
identifier exists. -/
theorem validateTransaction_duplicate_idempotent
    (db : DbState) (signature walletAddress : String) (amountUsdc : ℚ)
    (subscriptionDurationDays : ℕ) (fetched : Option TxData) (now : ℕ)
    (walletAddress2 : String) (amountUsdc2 : ℚ) (duration2 : ℕ)
    (fetched2 : Option TxData) (now2 : ℕ) (v : ValidatedSubscription)
    (h : (validateTransaction db signature walletAddress amountUsdc
        subscriptionDurationDays fetched now).2 = Except.ok v) :
    validateTransaction
        (validateTransaction db signature walletAddress amountUsdc
          subscriptionDurationDays fetched now).1
        signature walletAddress2 amountUsdc2 duration2 fetched2 now2
      = ((validateTransaction db signature walletAddress amountUsdc
            subscriptionDurationDays fetched now).1,
         Except.error "Payment already processed")
    ∧ ((validateTransaction db signature walletAddress amountUsdc
          subscriptionDurationDays fetched now).1.payments.filter
        (fun r => r.transaction_hash == signature)).length = 1 := by
  cases hfind : getPaymentByTransactionHash db signature with
  | some r => simp [validateTransaction, hfind] at h
  | none =>
  cases hdec : decodeTransaction fetched with
  | error e => simp [validateTransaction, hfind, hdec] at h
  | ok pr =>
  obtain ⟨signerAddress, instr⟩ := pr
  have hfindnone : db.payments.find? (fun r => r.transaction_hash == signature) = none := hfind
  have hpay : (validateTransaction db signature walletAddress amountUsdc
      subscriptionDurationDays fetched now).1.payments
      = db.payments ++
        [{ transaction_hash := signature, wallet_address := walletAddress,
           amount_usdc := amountUsdc, payment_date := now,
           subscription_duration_days := durationOrDefault subscriptionDurationDays,
           subscription_end_date := now + durationOrDefault subscriptionDurationDays,
           status := "confirmed" }] := by
    simp [validateTransaction, hfind, hdec, addPayment, updateSubscription_payments]
  have hfind2 : getPaymentByTransactionHash
      (validateTransaction db signature walletAddress amountUsdc
        subscriptionDurationDays fetched now).1 signature
      = some { transaction_hash := signature, wallet_address := walletAddress,
               amount_usdc := amountUsdc, payment_date := now,
               subscription_duration_days := durationOrDefault subscriptionDurationDays,
               subscription_end_date := now + durationOrDefault subscriptionDurationDays,
               status := "confirmed" } := by
    simp [getPaymentByTransactionHash, hpay, List.find?_append, hfindnone]
  refine ⟨validateTransaction_duplicate _ _ _ _ _ _ _ _ hfind2, ?_⟩
  rw [hpay, List.filter_append]
  rw [List.filter_eq_nil_iff.mpr (List.find?_eq_none.mp hfindnone)]
  simp

/-- Witness for C1: a concrete successful first call on the empty store,
followed by a second call with the same signature. -/
theorem validateTransaction_duplicate_idempotent_witness :
    validateTransaction
        (validateTransaction emptyDb "s1" "w1" 2 30
          (some ⟨[("signer1", some "sd")],
            some ⟨true, USDC_MINT, 5000000, "dest1"⟩⟩) 1000).1
        "s1" "w1b" 10 365 none 2000
      = ((validateTransaction emptyDb "s1" "w1" 2 30
            (some ⟨[("signer1", some "sd")],
              some ⟨true, USDC_MINT, 5000000, "dest1"⟩⟩) 1000).1,
         Except.error "Payment already processed")
    ∧ ((validateTransaction emptyDb "s1" "w1" 2 30
          (some ⟨[("signer1", some "sd")],
            some ⟨true, USDC_MINT, 5000000, "dest1"⟩⟩) 1000).1.payments.filter
        (fun r => r.transaction_hash == "s1")).length = 1 :=
  validateTransaction_duplicate_idempotent emptyDb "s1" "w1" 2 30
    (some ⟨[("signer1", some "sd")], some ⟨true, USDC_MINT, 5000000, "dest1"⟩⟩)
    1000 "w1b" 10 365 none 2000
    ⟨"s1", "signer1", "dest1", 2, USDC_MINT, 30, "Monthly Pro I"⟩ (by rfl)

/-- Witness for the amended C6 at a concrete nonempty signature. -/
theorem confirmSignature_outcome_values_witness :
    (runConfirmSignature "sg6w"
      [ConfirmEvent.pollStart, ConfirmEvent.pollComplete (PollResult.found false)]).resolvedValue
      = some "sg6w"
    ∧ (runConfirmSignature "sg6w"
      [ConfirmEvent.pollStart, ConfirmEvent.pollComplete (PollResult.found true)]).resolvedValue
      = some ""
    ∧ (runConfirmSignature "sg6w" [ConfirmEvent.timeoutFire]).resolvedValue = some ""
    ∧ some "sg6w" ≠ (some "" : Option String)
    ∧ (∀ events : List ConfirmEvent,
      (runConfirmSignature "sg6w" events).resolvedValue = none
      ∨ (runConfirmSignature "sg6w" events).resolvedValue = some "sg6w"
      ∨ (runConfirmSignature "sg6w" events).resolvedValue = some "") :=
  confirmSignature_outcome_values "sg6w" (by decide)

/-! ## Theorem for claim C7 -/

/-- Claim C7: for every requested amount strictly greater than the held
balance, `validateAmount` fails with the insufficient-balance error whose
message contains the held balance (rendered, as the source does, with
`toFixed(4)`), and it never fails that way when the requested amount does
not exceed the balance. -/
theorem validateAmount_insufficient_balance (requested userBalance : ℚ)
    (metadata : TokenMetadata) (hb : 0 ≤ userBalance)
    (hgt : userBalance < requested) :
    validateAmount (some requested) (some userBalance) (some metadata)
      = Except.error ("Insufficient balance! You have "
          ++ (toFixed4 userBalance ++ (" " ++ metadata.symbol)))
    ∧ (∃ pre post, "Insufficient balance! You have "
          ++ (toFixed4 userBalance ++ (" " ++ metadata.symbol))
        = pre ++ (toFixed4 userBalance ++ post))
    ∧ isInsufficientBalanceError
        (validateAmount (some requested) (some userBalance) (some metadata)) = true
    ∧ (∀ requested2 : ℚ, requested2 ≤ userBalance →
        isInsufficientBalanceError
          (validateAmount (some requested2) (some userBalance) (some metadata)) = false) := by
  have hpos : ¬ requested ≤ 0 := by linarith
  have hmain : validateAmount (some requested) (some userBalance) (some metadata)
      = Except.error ("Insufficient balance! You have "
          ++ (toFixed4 userBalance ++ (" " ++ metadata.symbol))) := by
    simp [validateAmount, hpos, hgt]
  refine ⟨hmain, ⟨"Insufficient balance! You have ", " " ++ metadata.symbol, rfl⟩, ?_, ?_⟩
  · rw [hmain]
    simp [isInsufficientBalanceError, startsWithChars, String.data_append]
  · intro requested2 hle
    by_cases hz : requested2 ≤ 0
    · have hres : validateAmount (some requested2) (some userBalance) (some metadata)
          = Except.error "Amount must be greater than 0!" := by
        simp [validateAmount, hz]
      rw [hres]
      rfl
    · have hng : ¬ userBalance < requested2 := not_lt.mpr hle
      have hres : validateAmount (some requested2) (some userBalance) (some metadata)
          = Except.ok () := by
        simp [validateAmount, hz, hng]
      rw [hres]
      rfl

/-- Witness for C7: balance 1, requested amount 3, USDC metadata. -/
theorem validateAmount_insufficient_balance_witness :
    (0 : ℚ) ≤ 1 ∧ (1 : ℚ) < 3
    ∧ (validateAmount (some 3) (some 1) (some ⟨"USDC"⟩)
        = Except.error ("Insufficient balance! You have "
            ++ (toFixed4 1 ++ (" " ++ "USDC")))
      ∧ (∃ pre post, "Insufficient balance! You have "
            ++ (toFixed4 1 ++ (" " ++ "USDC"))
          = pre ++ (toFixed4 1 ++ post))
      ∧ isInsufficientBalanceError
          (validateAmount (some 3) (some 1) (some ⟨"USDC"⟩)) = true
      ∧ (∀ requested2 : ℚ, requested2 ≤ 1 →
          isInsufficientBalanceError
            (validateAmount (some requested2) (some 1) (some ⟨"USDC"⟩)) = false)) :=
  ⟨by decide, by decide,
   validateAmount_insufficient_balance 3 1 ⟨"USDC"⟩ (by decide) (by decide)⟩

/-! ## Theorems for claim C9 -/

/-- Claim C9 (counterexample): running `validateTransaction` with
`subscriptionDurationDays = 0` succeeds, but the two subscription-upsert
writes of the call differ: `addPayment` itself writes
`payment_date + 30` (the `|| 30` fallback) while the caller then writes
`payment_date + 0`, so the caller's second write is not of the same end
date. -/
theorem validateTransaction_zero_duration_second_write_differs :
    (validateTransaction emptyDb "s9" "w9" 5 0
      (some ⟨[("signer9", some "sd")], some ⟨true, USDC_MINT, 5000000, "dest9"⟩⟩)
      100).1.subscriptionWrites
      = [("w9", 130), ("w9", 100)]
    ∧ (validateTransaction emptyDb "s9" "w9" 5 0
      (some ⟨[("signer9", some "sd")], some ⟨true, USDC_MINT, 5000000, "dest9"⟩⟩)
      100).2
      = Except.ok ⟨"s9", "signer9", "dest9", 5, USDC_MINT, 0, "Custom Plan"⟩
    ∧ (130 : ℕ) ≠ 100 :=
  ⟨rfl, rfl, by decide⟩

/-- Claim C9 (amended): every successful `addPayment` call upserts the
subscription row to `payment_date + (durationDays || 30)` before
returning, a failed `addPayment` leaves the store untouched, and for any
nonzero duration a successful `validateTransaction` performs exactly two
subscription writes with the same end date
`payment_date + durationDays` — the `addPayment`-internal upsert and the
caller's repeat; only a zero duration makes the two writes differ. -/
theorem addPayment_upserts_and_caller_rewrites :
    (∀ (db : DbState) (p : PaymentInput), (addPayment db p).2 = true →
      (addPayment db p).1.subscriptionWrites
        = db.subscriptionWrites
          ++ [(p.wallet_address,
               p.payment_date + durationOrDefault p.subscription_duration_days)])
    ∧ (∀ (db : DbState) (p : PaymentInput), (addPayment db p).2 = false →
      (addPayment db p).1 = db)
    ∧ (∀ (db : DbState) (signature walletAddress : String) (amountUsdc : ℚ)
        (subscriptionDurationDays : ℕ) (fetched : Option TxData) (now : ℕ)
        (v : ValidatedSubscription),
      subscriptionDurationDays ≠ 0 →
      (validateTransaction db signature walletAddress amountUsdc
        subscriptionDurationDays fetched now).2 = Except.ok v →
      (validateTransaction db signature walletAddress amountUsdc
        subscriptionDurationDays fetched now).1.subscriptionWrites
        = db.subscriptionWrites
          ++ [(walletAddress, now + subscriptionDurationDays),
              (walletAddress, now + subscriptionDurationDays)]) := by
  refine ⟨?_, ?_, ?_⟩
  · intro db p hs
    cases hfind : getPaymentByTransactionHash db p.transaction_hash with
    | some r => simp [addPayment, hfind] at hs
    | none =>
      simp [addPayment, hfind, updateSubscription_subscriptionWrites]
  · intro db p hs
    cases hfind : getPaymentByTransactionHash db p.transaction_hash with
    | some r => simp [addPayment, hfind]
    | none => simp [addPayment, hfind] at hs
  · intro db signature walletAddress amountUsdc d fetched now v hd h
    cases hfind : getPaymentByTransactionHash db signature with
    | some r => simp [validateTransaction, hfind] at h
    | none =>
    cases hdec : decodeTransaction fetched with
    | error e => simp [validateTransaction, hfind, hdec] at h
    | ok pr =>
    obtain ⟨signerAddress, instr⟩ := pr
    have hdur : durationOrDefault d = d := by simp [durationOrDefault, hd]
    simp [validateTransaction, hfind, hdec, addPayment,
      updateSubscription_subscriptionWrites, hdur]

/-- Witness for the amended C9: a successful insert on the empty store, a
failed duplicate insert, and a successful nonzero-duration validation
with its two equal subscription writes. -/
theorem addPayment_upserts_and_caller_rewrites_witness :
    (addPayment emptyDb ⟨"h9w", "w9w", 5, 100, 30, "confirmed"⟩).1.subscriptionWrites
      = emptyDb.subscriptionWrites
        ++ [("w9w", 100 + durationOrDefault 30)]
    ∧ (addPayment (addPayment emptyDb ⟨"h9w", "w9w", 5, 100, 30, "confirmed"⟩).1
        ⟨"h9w", "w9w", 5, 100, 30, "confirmed"⟩).1
      = (addPayment emptyDb ⟨"h9w", "w9w", 5, 100, 30, "confirmed"⟩).1
    ∧ (validateTransaction emptyDb "s9w" "w9v" 2 30
        (some ⟨[("signer1", some "sd")], some ⟨true, USDC_MINT, 5000000, "dest1"⟩⟩)
        1000).1.subscriptionWrites
      = emptyDb.subscriptionWrites
        ++ [("w9v", 1000 + 30), ("w9v", 1000 + 30)] :=
  ⟨addPayment_upserts_and_caller_rewrites.1 emptyDb
     ⟨"h9w", "w9w", 5, 100, 30, "confirmed"⟩ (by rfl),
   addPayment_upserts_and_caller_rewrites.2.1
     (addPayment emptyDb ⟨"h9w", "w9w", 5, 100, 30, "confirmed"⟩).1
     ⟨"h9w", "w9w", 5, 100, 30, "confirmed"⟩ (by rfl),
   addPayment_upserts_and_caller_rewrites.2.2 emptyDb "s9w" "w9v" 2 30
     (some ⟨[("signer1", some "sd")], some ⟨true, USDC_MINT, 5000000, "dest1"⟩⟩)
     1000 ⟨"s9w", "signer1", "dest1", 2, USDC_MINT, 30, "Monthly Pro I"⟩
     (by decide) (by rfl)⟩

/-! ## Theorem for claim C10 -/

/-- Claim C10: for every amount string that parses to a positive decimal
value but is rejected by `BigInt` (not a plain integer numeral, e.g.
`2.5`), `POST /subscription/transaction` returns a 400 error response
with a message and never returns an unsigned transaction, whatever the
balance, metadata and transaction-preparation results are, because the
`BigInt(amount)` conversion throws before instruction building. -/
theorem subscriptionTransaction_rejects_noninteger_amount
    (uiAmount : String) (balance : Option ℚ) (metadata : Option TokenMetadata)
    (preparedTransaction : String) (q : ℚ)
    (_hq : parseDecimalString (replaceFirstComma uiAmount) = some q)
    (_hpos : 0 < q)
    (hbig : jsBigIntOfString (replaceFirstComma uiAmount) = none) :
    ∃ msg, subscriptionTransactionHandler uiAmount balance metadata preparedTransaction
      = Except.error msg := by
  simp only [subscriptionTransactionHandler]
  cases hval : validateAmount (parseDecimalString (replaceFirstComma uiAmount))
      balance metadata with
  | error m => exact ⟨m, by simp [hval]⟩
  | ok u =>
    exact ⟨"Cannot convert " ++ (replaceFirstComma uiAmount ++ " to a BigInt"),
      by simp [hval, hbig]⟩

/-- Witness for C10 at the amount string `2.5` with ample balance. -/
theorem subscriptionTransaction_rejects_noninteger_amount_witness :
    parseDecimalString (replaceFirstComma "2.5")
      = some ((2 : ℚ) + (5 : ℚ) / 10 ^ 1)
    ∧ (0 : ℚ) < (2 : ℚ) + (5 : ℚ) / 10 ^ 1
    ∧ jsBigIntOfString (replaceFirstComma "2.5") = none
    ∧ (∃ msg, subscriptionTransactionHandler "2.5" (some 50) (some ⟨"USDC"⟩) "wiretx"
        = Except.error msg) :=
  ⟨rfl, by norm_num, rfl,
   subscriptionTransaction_rejects_noninteger_amount "2.5" (some 50) (some ⟨"USDC"⟩)
     "wiretx" ((2 : ℚ) + (5 : ℚ) / 10 ^ 1) rfl (by norm_num) rfl⟩

/-! ## Theorems for claim C8 -/

/-- Claim C8 (counterexample): a transaction that is submitted (the send
returns a signature) but whose confirmation times out leaves no payment
row at all — the handler reports `failed` and writes nothing — so the
claimed "Payment row exists if and only if submitted" invariant fails in
the submitted-implies-row direction. -/
theorem processTransaction_timeout_no_payment_row :
    wasSubmitted ⟨SubmitResult.sent "sigX", ConfirmOutcome.timedOut,
      some ⟨"hX", "wX", 20, "dateX", some 30⟩, some ⟨false⟩,
      some ⟨"wX", 20, USDC_MINT, "rX"⟩, 0⟩ = true
    ∧ (processTransaction emptyDb ⟨SubmitResult.sent "sigX", ConfirmOutcome.timedOut,
        some ⟨"hX", "wX", 20, "dateX", some 30⟩, some ⟨false⟩,
        some ⟨"wX", 20, USDC_MINT, "rX"⟩, 0⟩).1.payments = []
    ∧ (processTransaction emptyDb ⟨SubmitResult.sent "sigX", ConfirmOutcome.timedOut,
        some ⟨"hX", "wX", 20, "dateX", some 30⟩, some ⟨false⟩,
        some ⟨"wX", 20, USDC_MINT, "rX"⟩, 0⟩).2.status = "failed" :=
  ⟨rfl, rfl, rfl⟩

/-- Claim C8 (amended): the confirmation handler creates a payment row
only for a transaction that was submitted, whose confirmation resolved
`confirmed`, and whose validation then inserted the row keyed by the
returned signature; any row present afterwards either pre-existed or
belongs to such a submitted-and-confirmed transaction. Submitted
transactions that fail or time out leave no new row. -/
theorem processTransaction_rows_only_for_confirmed
    (db : DbState) (inp : TxProcessInputs) (s : String)
    (h : rowExists (processTransaction db inp).1 s = true) :
    rowExists db s = true
    ∨ (inp.submit = SubmitResult.sent s ∧ inp.confirm = ConfirmOutcome.confirmed) := by
  obtain ⟨submit, confirm, payment, fetched, details, now⟩ := inp
  cases submit with
  | threw errSignature =>
    cases errSignature with
    | none =>
      simp only [processTransaction, sendTransaction] at h
      exact Or.inl h
    | some es =>
      simp only [processTransaction, sendTransaction,
        rowExists_updatePaymentStatus] at h
      exact Or.inl h
  | sent sig =>
    cases confirm with
    | failedOnChain =>
      simp only [processTransaction, sendTransaction, confirmResolution] at h
      exact Or.inl h
    | timedOut =>
      simp only [processTransaction, sendTransaction, confirmResolution] at h
      exact Or.inl h
    | confirmed =>
      by_cases hsig : sig = ""
      · subst hsig
        simp only [processTransaction, sendTransaction, confirmResolution] at h
        exact Or.inl h
      · cases payment with
        | none =>
          simp only [processTransaction, sendTransaction, confirmResolution,
            if_neg hsig] at h
          exact Or.inl h
        | some p =>
          cases fetched with
          | none =>
            simp only [processTransaction, sendTransaction, confirmResolution,
              if_neg hsig] at h
            exact Or.inl h
          | some f =>
            by_cases hme : f.metaErr = true
            · simp only [processTransaction, sendTransaction, confirmResolution,
                if_neg hsig, if_pos hme] at h
              exact Or.inl h
            · simp only [processTransaction, sendTransaction, confirmResolution,
                if_neg hsig, if_neg hme] at h
              have hrow : rowExists (validateTransactionFromMeta db sig details now).1 s
                  = true := by
                cases hv : validateTransactionFromMeta db sig details now with
                | mk db2 r =>
                  rw [hv] at h
                  cases r with
                  | ok w => simpa using h
                  | error e => simpa using h
              rcases rowExists_validateTransactionFromMeta hrow with hl | hr
              · exact Or.inl hl
              · subst hr
                exact Or.inr ⟨rfl, rfl⟩

/-- Witness for the amended C8: a submitted, confirmed and validated
transaction on the empty store. -/
theorem processTransaction_rows_only_for_confirmed_witness :
    rowExists emptyDb "sg8" = true
    ∨ (SubmitResult.sent "sg8" = SubmitResult.sent "sg8"
       ∧ ConfirmOutcome.confirmed = ConfirmOutcome.confirmed) :=
  processTransaction_rows_only_for_confirmed emptyDb
    ⟨SubmitResult.sent "sg8", ConfirmOutcome.confirmed,
     some ⟨"sg8", "w8", 20, "d8", some 30⟩, some ⟨false⟩,
     some ⟨"w8", 20, USDC_MINT, "r8"⟩, 50⟩ "sg8" (by rfl)

end SolanaSub
